import Mathlib

/-!
Shallow embedding of the `WindowPhysics` classes of the clutterx-website
repository (file `src/js/window-physics.js`, which concatenates three
variants of the class, and the two unnamed source files, which hold two
further stretch-based variants).

Naming of the variants:
* `JsA` — first class in `src/js/window-physics.js` (shake-based, strict
  `detectShake`, `shakeThreshold = 25`, `friction = 0.95`, `bounce = 0.3`).
* `JsB` — second class in `src/js/window-physics.js` (stretch-based,
  `maxStretch = 80`, `snapThreshold = 60`, `friction = 0.98`, `bounce = 0.6`,
  gravity toggle).
* `JsC` — third class in `src/js/window-physics.js` (shake-based, loose
  `detectShake`, `shakeThreshold = 15`).
* `P0` — `src/unnamed/part_000` (clean stretch variant, `maxStretch = 60`,
  `snapThreshold = 40`).
* `P1` — `src/unnamed/part_001` (stretch variant, `maxStretch = 80`,
  `snapThreshold = 60`, `friction = 0.95`, `bounce = 0.3`).

Coordinates, velocities and thresholds are embedded as rationals (`ℚ`).
JavaScript `Math.sqrt(vx*vx + vy*vy) < c` comparisons are embedded as the
equivalent `vx*vx + vy*vy < c*c` (both sides are nonnegative and squaring
is monotone), so no square root is needed.  DOM writes that only toggle
CSS classes, transforms, filters, shadows, z-index or notifications are
cosmetic and are not part of the state; `dispatchEvent` calls are modelled
as an explicit event list returned next to the new state.  A `setInterval`
handle (`this.physicsInterval`) is modelled by the Boolean `physicsOn`
(a refined model with timer identifiers appears further down for the
single-timer claim).
-/

/-- Host environment: viewport extents (`window.innerWidth/innerHeight`)
and the window element's extents (`offsetWidth/offsetHeight`). -/
structure Env where
  innerWidth : ℚ
  innerHeight : ℚ
  offsetWidth : ℚ
  offsetHeight : ℚ
deriving DecidableEq

/-- A pointer (mouse) event: `clientX` and `clientY`. -/
structure PEvent where
  x : ℚ
  y : ℚ
deriving DecidableEq

/-- Custom DOM events dispatched by the class. -/
inductive WinEvent where
  | windowDetached
  | windowReattached
deriving DecidableEq

/-- Per-instance mutable state of a `WindowPhysics` object.  This is the
union of the instance fields of all variants; each variant's methods only
read and write the fields its JavaScript counterpart uses.  `x`/`y` is the
window's top-left corner (the `style.left`/`style.top` a bottom-anchored
rail position is converted to), `physicsOn` models
`physicsInterval !== null`.  `maxStretch`, `snapThreshold`, `friction`,
`bounce`, `accelX`, `accelY` are constructor-set instance fields. -/
structure WState where
  isDetached : Bool
  isDragging : Bool
  isStretching : Bool
  stretchStartY : ℚ
  stretchAmount : ℚ
  maxStretch : ℚ
  snapThreshold : ℚ
  lastMouseX : ℚ
  lastMouseY : ℚ
  dragStartX : ℚ
  dragStartY : ℚ
  windowStartX : ℚ
  windowStartY : ℚ
  x : ℚ
  y : ℚ
  vx : ℚ
  vy : ℚ
  gravityEnabled : Bool
  accelX : ℚ
  accelY : ℚ
  friction : ℚ
  bounce : ℚ
  physicsOn : Bool
deriving DecidableEq

/-- Squared speed `vx*vx + vy*vy`; the source compares
`Math.sqrt(vx*vx + vy*vy)` against thresholds, which we embed as the
equivalent comparison of this square against the squared threshold. -/
def speedSq (s : WState) : ℚ := s.vx * s.vx + s.vy * s.vy

/-- Top coordinate corresponding to `style.bottom = '52px'` (the taskbar
rail used by the stretch variants). -/
def railY (env : Env) : ℚ := env.innerHeight - 52 - env.offsetHeight

/-- `stopPhysics` — identical in every variant: clear the interval (if
any) and zero the velocity. -/
def stopPhysics (s : WState) : WState :=
  { s with physicsOn := false, vx := 0, vy := 0 }

/-- One axis of the boundary-collision logic shared by every
`updatePhysics`: tentative coordinate `pos + v`; if it is `≤ 0` clamp to
`0` and reflect-and-dampen the velocity, if it is `≥ bound` clamp to
`bound` and reflect-and-dampen, otherwise keep it. -/
def bounceAxis (bound pos v b : ℚ) : ℚ × ℚ :=
  let np := pos + v
  if np ≤ 0 then (0, -v * b)
  else if np ≥ bound then (bound, -v * b)
  else (np, v)

namespace JsB

/-- `moveWindowFreely(x, y)` of the JsB variant: clamp both coordinates to
the viewport and write them. -/
def moveWindowFreely (env : Env) (x y : ℚ) : ℚ × ℚ :=
  let maxX := env.innerWidth - env.offsetWidth
  let maxY := env.innerHeight - env.offsetHeight
  (max 0 (min maxX x), max 0 (min maxY y))

/-- `moveOnTaskbarRail(x)` of the JsB variant: clamp `x` to
`[0, innerWidth - offsetWidth]`; the vertical position is pinned to the
rail (`bottom: 52px`). -/
def moveOnTaskbarRail (env : Env) (x : ℚ) : ℚ :=
  max 0 (min (env.innerWidth - env.offsetWidth) x)

/-- `detachWindow(e)` of the JsB variant.  Early-returns when already
detached; otherwise marks the window detached, ends stretching, converts
the position to free (top-based) coordinates — numerically the same
`x`/`y` — and dispatches `windowDetached`.  The remaining statements only
touch CSS. -/
def detachWindow (s : WState) : WState × List WinEvent :=
  if s.isDetached then (s, [])
  else ({ s with isDetached := true, isStretching := false },
        [WinEvent.windowDetached])

/-- `reattachWindow()` of the JsB variant.  Early-returns when not
detached; otherwise stops physics (zeroing the velocity), clears the
detached and gravity flags and acceleration, pins the window back to the
rail, and dispatches `windowReattached`. -/
def reattachWindow (env : Env) (s : WState) : WState × List WinEvent :=
  if s.isDetached = false then (s, [])
  else ({ stopPhysics s with
            isDetached := false, gravityEnabled := false, accelY := 0,
            y := railY env },
        [WinEvent.windowReattached])

/-- `checkForSlamReattach(e)` of the JsB variant: reattach when the
window's bottom edge is at or below `innerHeight - 120` and the speed
exceeds 3 (embedded as squared speed `> 9`) or the window is moving
downward. -/
def checkForSlamReattach (env : Env) (s : WState) : WState × List WinEvent :=
  let bottom := s.y + env.offsetHeight
  let taskbarZone := env.innerHeight - 120
  if bottom ≥ taskbarZone ∧ (speedSq s > 9 ∨ s.vy > 0) then reattachWindow env s
  else (s, [])

/-- `checkForAutoReattach()` of the JsB variant (run from inside
`updatePhysics`): reattach when the bottom edge is at or below
`innerHeight - 100` and the speed is below 2 (embedded as squared speed
`< 4`). -/
def checkForAutoReattach (env : Env) (s : WState) : WState × List WinEvent :=
  let bottom := s.y + env.offsetHeight
  let taskbarZone := env.innerHeight - 100
  if bottom ≥ taskbarZone ∧ speedSq s < 4 then reattachWindow env s
  else (s, [])

/-- `snapBack()` of the JsB variant: plays the elastic snap-back animation
and (in its 500ms timeout) resets the stretching state; the settled state
is modelled directly. -/
def snapBack (s : WState) : WState :=
  { s with isStretching := false, stretchAmount := 0 }

/-- `startPhysics()` of the JsB variant: first calls `stopPhysics()`
(which unconditionally zeroes the velocity), then schedules the interval. -/
def startPhysics (s : WState) : WState :=
  { stopPhysics s with physicsOn := true }

/-- `drag(e)` of the JsB variant (the document `mousemove` handler). -/
def drag (env : Env) (e : PEvent) (s : WState) : WState × List WinEvent :=
  if s.isDragging = false then (s, [])
  else
    let deltaX := e.x - s.lastMouseX
    let deltaY := e.y - s.lastMouseY
    let s :=
      if s.isDetached then { s with vx := deltaX * (6/5), vy := deltaY * (6/5) }
      else s
    let s := { s with lastMouseX := e.x, lastMouseY := e.y }
    if s.isDetached then
      let p := moveWindowFreely env (s.x + deltaX) (s.y + deltaY)
      ({ s with x := p.1, y := p.2 }, [])
    else
      let upwardDistance := s.stretchStartY - e.y
      if upwardDistance > 10 then
        let s := { s with isStretching := true,
                          stretchAmount := min upwardDistance s.maxStretch }
        if s.stretchAmount ≥ s.snapThreshold then detachWindow s
        else (s, [])
      else
        let s := { s with isStretching := false, stretchAmount := 0 }
        ({ s with x := moveOnTaskbarRail env (s.x + deltaX), y := railY env }, [])

/-- `endDrag(e)` of the JsB variant (the document `mouseup` handler):
when a stretch did not reach the threshold, snap back; when the window is
detached, start the physics loop and then evaluate the slam check once. -/
def endDrag (env : Env) (s : WState) : WState × List WinEvent :=
  if s.isDragging = false then (s, [])
  else
    let s := { s with isDragging := false }
    if s.isStretching ∧ s.isDetached = false then (snapBack s, [])
    else if s.isDetached then checkForSlamReattach env (startPhysics s)
    else (s, [])

end JsB

/-- Consecutive deltas `y i - y (i-1)` of a sample list, one per loop
iteration `i = 1 .. length-1` of the `detectShake` loops (only the `y`
component of the recorded `{x, y, time}` samples is read there). -/
def posDeltas : List ℚ → List ℚ
  | a :: b :: rest => (b - a) :: posDeltas (b :: rest)
  | _ => []

/-- Accumulator of the strict `detectShake` loop of the JsA variant:
`verticalMovements`, `upwardMovement`, `totalVerticalDistance`,
`maxUpwardDelta`, `consecutiveUpward`, `maxConsecutiveUpward`. -/
structure ShakeStats where
  verticalMovements : Nat
  upwardMovement : Nat
  totalVerticalDistance : ℚ
  maxUpwardDelta : ℚ
  consecutiveUpward : Nat
  maxConsecutiveUpward : Nat
deriving DecidableEq

/-- Initial values of the strict shake-loop accumulators. -/
def initShakeStats : ShakeStats := ⟨0, 0, 0, 0, 0, 0⟩

/-- One iteration of the strict shake loop on a delta that passed the
threshold test: bump the movement counters, accumulate the distance, and
track the maximum upward delta and the upward streak. -/
def shakeUpdateQ (st : ShakeStats) (deltaY : ℚ) : ShakeStats :=
  let st := { st with verticalMovements := st.verticalMovements + 1,
                      totalVerticalDistance := st.totalVerticalDistance + |deltaY| }
  if deltaY < 0 then
    let c := st.consecutiveUpward + 1
    { st with upwardMovement := st.upwardMovement + 1,
              maxUpwardDelta := max st.maxUpwardDelta |deltaY|,
              consecutiveUpward := c,
              maxConsecutiveUpward := max st.maxConsecutiveUpward c }
  else { st with consecutiveUpward := 0 }

/-- One iteration of the strict shake loop: deltas at or below the
threshold leave every accumulator untouched. -/
def shakeUpdate (threshold : ℚ) (st : ShakeStats) (deltaY : ℚ) : ShakeStats :=
  if |deltaY| > threshold then shakeUpdateQ st deltaY else st

namespace JsA

/-- Strict `detectShake()` of the JsA variant: bail out below 8 recorded
samples, run the accumulator loop over the consecutive deltas, and detach
when all five conditions hold (`this.shakeThreshold`, a constructor field
set to 25, is passed explicitly). -/
def detectShake (threshold : ℚ) (ys : List ℚ) : Bool :=
  if ys.length < 8 then false
  else
    let st := (posDeltas ys).foldl (shakeUpdate threshold) initShakeStats
    decide (5 ≤ st.verticalMovements ∧ 3 ≤ st.upwardMovement ∧
            100 < st.totalVerticalDistance ∧ 35 < st.maxUpwardDelta ∧
            2 ≤ st.maxConsecutiveUpward)

/-- `updatePhysics()` of the JsA variant (no gravity, no reattach call):
bail out (stopping physics) unless detached and not being dragged;
boundary-handle both axes, apply friction, stop when both velocity
components are below `0.1` (position untouched in that case), otherwise
write the new position. -/
def updatePhysics (env : Env) (s : WState) : WState :=
  if s.isDetached = false ∨ s.isDragging = true then stopPhysics s
  else
    let px := bounceAxis (env.innerWidth - env.offsetWidth) s.x s.vx s.bounce
    let py := bounceAxis (env.innerHeight - env.offsetHeight) s.y s.vy s.bounce
    let vx := px.2 * s.friction
    let vy := py.2 * s.friction
    if |vx| < 1/10 ∧ |vy| < 1/10 then stopPhysics s
    else { s with x := px.1, y := py.1, vx := vx, vy := vy }

/-- One 16ms timer tick: the interval callback runs `updatePhysics()` only
while the interval is scheduled. -/
def tick (env : Env) (s : WState) : WState :=
  if s.physicsOn then updatePhysics env s else s

/-- `n` timer ticks of the physics loop. -/
def run (env : Env) : Nat → WState → WState
  | 0, s => s
  | n + 1, s => tick env (run env n s)

end JsA

namespace JsC

/-- One iteration of the loose `detectShake` loop of the JsC variant:
count deltas above the threshold and, among them, the upward ones. -/
def shakeUpdate (threshold : ℚ) (st : Nat × Nat) (deltaY : ℚ) : Nat × Nat :=
  if |deltaY| > threshold then
    (st.1 + 1, if deltaY < 0 then st.2 + 1 else st.2)
  else st

/-- One iteration of the loose shake loop on a delta that passed the
threshold test. -/
def shakeUpdateQ (st : Nat × Nat) (deltaY : ℚ) : Nat × Nat :=
  (st.1 + 1, if deltaY < 0 then st.2 + 1 else st.2)

/-- Loose `detectShake()` of the JsC variant: bail out below 5 samples and
detach when at least 3 deltas pass the threshold and at least 2 of them
are upward. -/
def detectShake (threshold : ℚ) (ys : List ℚ) : Bool :=
  if ys.length < 5 then false
  else
    let st := (posDeltas ys).foldl (shakeUpdate threshold) (0, 0)
    decide (3 ≤ st.1 ∧ 2 ≤ st.2)

end JsC

namespace P0

/-- `detachWindow(e)` of the part_000 variant: early return when already
detached; otherwise mark detached, end stretching, keep the current
position (converted to top-based coordinates), update the free-move
anchor `windowStartX`/`windowStartY` to the current rect — the rest is
CSS.  This variant dispatches no detach event. -/
def detachWindow (s : WState) : WState × List WinEvent :=
  if s.isDetached then (s, [])
  else ({ s with isDetached := true, isStretching := false,
                 windowStartX := s.x, windowStartY := s.y }, [])

/-- `reattachWindow()` of the part_000 variant: early return when not
detached; otherwise stop physics, clear the detached and gravity flags,
pin to the rail, dispatch `windowReattached`. -/
def reattachWindow (env : Env) (s : WState) : WState × List WinEvent :=
  if s.isDetached = false then (s, [])
  else ({ stopPhysics s with
            isDetached := false, gravityEnabled := false, y := railY env },
        [WinEvent.windowReattached])

/-- `startPhysics()` of the part_000 variant: a no-op when an interval is
already scheduled; otherwise schedule one.  Unlike the other variants it
does not call `stopPhysics()` first, so the velocity is preserved. -/
def startPhysics (s : WState) : WState :=
  if s.physicsOn then s else { s with physicsOn := true }

/-- `checkForSlamReattach()` of the part_000 variant: reattach whenever
the bottom edge is at or below `innerHeight - 100` (no speed condition). -/
def checkForSlamReattach (env : Env) (s : WState) : WState × List WinEvent :=
  if s.y + env.offsetHeight ≥ env.innerHeight - 100 then reattachWindow env s
  else (s, [])

/-- `checkForAutoReattach()` of the part_000 variant: reattach when the
bottom edge is at or below `innerHeight - 80` and the speed is below 2
(embedded as squared speed `< 4`). -/
def checkForAutoReattach (env : Env) (s : WState) : WState × List WinEvent :=
  if s.y + env.offsetHeight ≥ env.innerHeight - 80 ∧ speedSq s < 4 then
    reattachWindow env s
  else (s, [])

end P0

namespace P1

/-- `detachWindow(e)` of the part_001 variant: early return when already
detached; otherwise mark detached, end stretching, keep the position, and
dispatch `windowDetached`. -/
def detachWindow (s : WState) : WState × List WinEvent :=
  if s.isDetached then (s, [])
  else ({ s with isDetached := true, isStretching := false },
        [WinEvent.windowDetached])

/-- `reattachWindow()` of the part_001 variant: early return when not
detached; otherwise stop physics, clear the detached flag, pin to the
rail, dispatch `windowReattached` (this variant has no gravity fields). -/
def reattachWindow (env : Env) (s : WState) : WState × List WinEvent :=
  if s.isDetached = false then (s, [])
  else ({ stopPhysics s with isDetached := false, y := railY env },
        [WinEvent.windowReattached])

/-- `checkForSlamReattach(e)` of the part_001 variant: reattach when the
bottom edge is within 80px of the viewport bottom and the speed exceeds 8
(embedded as squared speed `> 64`).  The computed `taskbarTop` of the
source is unused there. -/
def checkForSlamReattach (env : Env) (s : WState) : WState × List WinEvent :=
  if |s.y + env.offsetHeight - env.innerHeight| < 80 ∧ speedSq s > 64 then
    reattachWindow env s
  else (s, [])

/-- `moveWindowFreely(x, y)` of the part_001 variant (same clamping as
JsB). -/
def moveWindowFreely (env : Env) (x y : ℚ) : ℚ × ℚ :=
  (max 0 (min (env.innerWidth - env.offsetWidth) x),
   max 0 (min (env.innerHeight - env.offsetHeight) y))

/-- `moveOnTaskbarRail(x)` of the part_001 variant. -/
def moveOnTaskbarRail (env : Env) (x : ℚ) : ℚ :=
  max 0 (min (env.innerWidth - env.offsetWidth) x)

/-- `drag(e)` of the part_001 variant — same structure as JsB's handler
but with momentum factor `0.8` and no `stretching` CSS class. -/
def drag (env : Env) (e : PEvent) (s : WState) : WState × List WinEvent :=
  if s.isDragging = false then (s, [])
  else
    let deltaX := e.x - s.lastMouseX
    let deltaY := e.y - s.lastMouseY
    let s :=
      if s.isDetached then { s with vx := deltaX * (4/5), vy := deltaY * (4/5) }
      else s
    let s := { s with lastMouseX := e.x, lastMouseY := e.y }
    if s.isDetached then
      let p := moveWindowFreely env (s.x + deltaX) (s.y + deltaY)
      ({ s with x := p.1, y := p.2 }, [])
    else
      let upwardDistance := s.stretchStartY - e.y
      if upwardDistance > 10 then
        let s := { s with isStretching := true,
                          stretchAmount := min upwardDistance s.maxStretch }
        if s.stretchAmount ≥ s.snapThreshold then detachWindow s
        else (s, [])
      else
        let s := { s with isStretching := false, stretchAmount := 0 }
        ({ s with x := moveOnTaskbarRail env (s.x + deltaX), y := railY env }, [])

end P1

/-- The stretch amount as the attached branch of the stretch drag
handlers computes it: `0` unless the upward displacement exceeds `10`,
otherwise `min(upwardDistance, maxStretch)`. -/
def codeStretchAmount (maxS d : ℚ) : ℚ := if d > 10 then min d maxS else 0

/-- Modelled from the spec: the stretch-amount formula as the
specification words it, `amount = min(max(0, stretchStartY - pointerY),
maxStretch)`, stated for comparison against `codeStretchAmount`. -/
def specStretchAmount (maxS d : ℚ) : ℚ := min (max 0 d) maxS

/-- The consecutive deltas of a sample list that pass the shake threshold
(the only deltas the strict shake loop ever reacts to). -/
def qualifyingDeltas (threshold : ℚ) (ys : List ℚ) : List ℚ :=
  (posDeltas ys).filter (fun d => threshold < |d|)

/-- Whether a delta list starts with an upward (negative) delta. -/
def headNegB : List ℚ → Bool
  | d :: _ => decide (d < 0)
  | [] => false

/-- Whether a delta list contains two adjacent upward (negative) deltas —
the declarative reading of the loop's `maxConsecutiveUpward >= 2` test. -/
def hasTwoConsecUpward : List ℚ → Bool
  | [] => false
  | d :: rest => (decide (d < 0) && headNegB rest) || hasTwoConsecUpward rest

/-!
Refined timer model for the single-physics-timer claim.  `setInterval`
returns a fresh handle and adds a live timer; `clearInterval` removes the
named timer.  `active` is the multiset (as a list) of live interval
timers owned by one window instance; `physicsInterval` is the instance
field holding the last handle (or `null`). -/

/-- A window instance together with the host's interval-timer table. -/
structure TimerSys where
  active : List Nat
  nextId : Nat
  physicsInterval : Option Nat
  vx : ℚ
  vy : ℚ
deriving DecidableEq

/-- `stopPhysics()` on the timer model: `clearInterval` the held handle
(if any), null the field, zero the velocity. -/
def stopPhysicsT (t : TimerSys) : TimerSys :=
  match t.physicsInterval with
  | some h => { t with active := t.active.erase h, physicsInterval := none,
                       vx := 0, vy := 0 }
  | none => { t with vx := 0, vy := 0 }

/-- `setInterval(...)` on the timer model: register a fresh live timer
and store its handle in `physicsInterval`. -/
def scheduleT (t : TimerSys) : TimerSys :=
  { t with active := t.nextId :: t.active, physicsInterval := some t.nextId,
           nextId := t.nextId + 1 }

/-- `startPhysics()` of the JsA and JsB variants on the timer model:
`stopPhysics()` first (cancelling any prior timer), then schedule. -/
def startPhysicsTStop (t : TimerSys) : TimerSys := scheduleT (stopPhysicsT t)

/-- `startPhysics()` of the part_000 variant on the timer model: a no-op
when a handle is already held, otherwise schedule. -/
def startPhysicsTNoop (t : TimerSys) : TimerSys :=
  if t.physicsInterval.isSome then t else scheduleT t

/-- Reference environment for concrete evaluations: an 800×800 viewport
holding a 300×300 window (so both clamping bounds are 500 and the rail
top is 448). -/
def env0 : Env := ⟨800, 800, 300, 300⟩

/-- Baseline concrete state: attached, mid-drag from pointer position
(200, 100), window sitting on the rail at `x = 250`, JsB constructor
constants (`maxStretch = 80`, `snapThreshold = 60`, `friction = 0.98`,
`bounce = 0.6`). -/
def base : WState :=
  { isDetached := false, isDragging := true, isStretching := false,
    stretchStartY := 100, stretchAmount := 0, maxStretch := 80,
    snapThreshold := 60, lastMouseX := 200, lastMouseY := 100,
    dragStartX := 200, dragStartY := 100, windowStartX := 250,
    windowStartY := 448, x := 250, y := 448, vx := 0, vy := 0,
    gravityEnabled := false, accelX := 0, accelY := 0,
    friction := 49/50, bounce := 3/5, physicsOn := false }

/-- Concrete state for the velocity-handoff claim: a detached window
being dragged with tracked velocity `(5, 5)`, far above the dock zone. -/
def sHandoff : WState := { base with isDetached := true, vx := 5, vy := 5, y := 100 }

/-- Concrete state for the reattachment claim: a detached window at rest
(speed 0) whose bottom edge touches the viewport bottom. -/
def sDockRest : WState :=
  { base with isDetached := true, isDragging := false, vx := 0, vy := 0, y := 500 }

/-- Concrete state for the boundary-bounce claim: a detached, free window
exactly at the right boundary (`x = maxX = 500`) moving right with
`vx = 5`, using the JsA constructor constants (`friction = 0.95`,
`bounce = 0.3`). -/
def sBounce : WState :=
  { base with isDetached := true, isDragging := false, physicsOn := true,
              x := 500, y := 200, vx := 5, vy := 0,
              friction := 19/20, bounce := 3/10 }

/-- Concrete state for the dissipation claim: a detached, free window in
flight with velocity `(5, 3)` under the JsA constants. -/
def sFlight : WState :=
  { base with isDetached := true, isDragging := false, physicsOn := true,
              x := 250, y := 200, vx := 5, vy := 3,
              friction := 19/20, bounce := 3/10 }

/-- Concrete 7-sample buffer: six consecutive upward deltas of 40px
each — every shake condition holds, but the buffer is one sample short of
the loop's minimum of 8. -/
def ys7 : List ℚ := [240, 200, 160, 120, 80, 40, 0]

/-- Concrete timer state: one live timer whose handle is held in
`physicsInterval`, as after a previous `startPhysics()`. -/
def tOne : TimerSys := ⟨[7], 8, some 7, 5, 3⟩

/-- The attached branch of the JsB `drag` handler computes the stretch
amount by `codeStretchAmount`. -/
theorem JsB_drag_stretchAmount (env : Env) (e : PEvent) (s : WState)
    (h1 : s.isDragging = true) (h2 : s.isDetached = false) :
    ((JsB.drag env e s).1).stretchAmount
      = codeStretchAmount s.maxStretch (s.stretchStartY - e.y) := by
  simp only [JsB.drag, h1, h2, codeStretchAmount, Bool.false_eq_true, if_false,
    if_true, Bool.true_eq_false]
  split_ifs with h3 h4 <;>
    simp_all [JsB.detachWindow]

/-- The attached branch of the part_001 `drag` handler computes the
stretch amount by `codeStretchAmount`. -/
theorem P1_drag_stretchAmount (env : Env) (e : PEvent) (s : WState)
    (h1 : s.isDragging = true) (h2 : s.isDetached = false) :
    ((P1.drag env e s).1).stretchAmount
      = codeStretchAmount s.maxStretch (s.stretchStartY - e.y) := by
  simp only [P1.drag, h1, h2, codeStretchAmount, Bool.false_eq_true, if_false,
    if_true, Bool.true_eq_false]
  split_ifs with h3 h4 <;>
    simp_all [P1.detachWindow]

/-- For a nonnegative `maxStretch` the implemented amount is monotone in
the upward displacement. -/
theorem codeStretchAmount_monotone (maxS : ℚ) (h : 0 ≤ maxS) :
    Monotone (codeStretchAmount maxS) := by
  intro a b hab
  unfold codeStretchAmount
  split_ifs with ha hb
  · exact min_le_min hab le_rfl
  · linarith
  · exact le_min (by linarith) h
  · exact le_rfl

/-- Claim C2 fails as stated: at an upward displacement of 5px (pointer
moved from y = 100 to y = 95 while attached), the move handler computes
stretch amount 0, while the claimed formula
`min(max(0, stretchStartY - pointerY), maxStretch)` gives 5. -/
theorem c2_counterexample :
    ((JsB.drag env0 ⟨200, 95⟩ base).1).stretchAmount = 0 ∧
    specStretchAmount base.maxStretch (base.stretchStartY - 95) = 5 ∧
    ((JsB.drag env0 ⟨200, 95⟩ base).1).stretchAmount
      ≠ specStretchAmount base.maxStretch (base.stretchStartY - 95) := by
  refine ⟨?_, ?_, ?_⟩ <;>
    norm_num [JsB.drag, JsB.detachWindow, env0, base, specStretchAmount,
      min_def, max_def]

/-- Claim C2 as amended: while attached, the move handlers (JsB and
part_001) compute `amount = min(stretchStartY - pointerY, maxStretch)`
only when the upward displacement exceeds 10px and `0` otherwise; this
amount is still monotone in upward displacement and clamped to
`maxStretch`, and it agrees with the spec's formula except on upward
displacements in `(0, 10]`, where the code yields 0. -/
theorem c2_amended :
    (∀ (env : Env) (e : PEvent) (s : WState), s.isDragging = true →
        s.isDetached = false →
        ((JsB.drag env e s).1).stretchAmount
          = codeStretchAmount s.maxStretch (s.stretchStartY - e.y)) ∧
    (∀ (env : Env) (e : PEvent) (s : WState), s.isDragging = true →
        s.isDetached = false →
        ((P1.drag env e s).1).stretchAmount
          = codeStretchAmount s.maxStretch (s.stretchStartY - e.y)) ∧
    (∀ maxS : ℚ, 0 ≤ maxS → Monotone (codeStretchAmount maxS)) ∧
    (∀ maxS d : ℚ, 0 ≤ maxS → codeStretchAmount maxS d ≤ maxS) ∧
    (∀ maxS d : ℚ, 0 ≤ maxS → d ≤ 0 ∨ 10 < d →
        codeStretchAmount maxS d = specStretchAmount maxS d) := by
  refine ⟨JsB_drag_stretchAmount, P1_drag_stretchAmount,
    codeStretchAmount_monotone, ?_, ?_⟩
  · intro maxS d h
    unfold codeStretchAmount
    split_ifs
    · exact min_le_right d maxS
    · exact h
  · intro maxS d h hd
    unfold codeStretchAmount specStretchAmount
    rcases hd with hd | hd
    · rw [if_neg (by linarith), max_eq_left hd, min_eq_left h]
    · rw [if_pos (by linarith), max_eq_right (by linarith)]

/-- Witness for the amended C2: a concrete evaluation of every conjunct
at the reference state (upward displacement 65, amount `min 65 80 = 65`). -/
theorem c2_amended_witness :
    ((JsB.drag env0 ⟨200, 35⟩ base).1).stretchAmount
        = codeStretchAmount base.maxStretch (base.stretchStartY - 35) ∧
    ((P1.drag env0 ⟨200, 35⟩ base).1).stretchAmount
        = codeStretchAmount base.maxStretch (base.stretchStartY - 35) ∧
    codeStretchAmount 80 30 ≤ codeStretchAmount 80 65 ∧
    codeStretchAmount 80 65 ≤ 80 ∧
    codeStretchAmount 80 65 = specStretchAmount 80 65 := by
  refine ⟨c2_amended.1 env0 ⟨200, 35⟩ base rfl rfl,
    c2_amended.2.1 env0 ⟨200, 35⟩ base rfl rfl,
    c2_amended.2.2.1 80 (by norm_num) (by norm_num : (30:ℚ) ≤ 65),
    c2_amended.2.2.2.1 80 65 (by norm_num),
    c2_amended.2.2.2.2 80 65 (by norm_num) (Or.inr (by norm_num))⟩

/-- The JsB `drag` handler never changes `isDragging`, `stretchStartY`,
`maxStretch` or `snapThreshold`. -/
theorem JsB_drag_fields (env : Env) (e : PEvent) (s : WState) :
    ((JsB.drag env e s).1).isDragging = s.isDragging ∧
    ((JsB.drag env e s).1).stretchStartY = s.stretchStartY ∧
    ((JsB.drag env e s).1).maxStretch = s.maxStretch ∧
    ((JsB.drag env e s).1).snapThreshold = s.snapThreshold := by
  simp only [JsB.drag, JsB.detachWindow]
  split_ifs <;> simp_all

/-- One JsB move event detaches the window exactly when it was already
detached or the upward displacement reaches the snap threshold (with the
JsB constants `maxStretch = 80`, `snapThreshold = 60`). -/
theorem JsB_drag_isDetached (env : Env) (e : PEvent) (s : WState)
    (hd : s.isDragging = true) (hm : s.maxStretch = 80)
    (ht : s.snapThreshold = 60) :
    ((JsB.drag env e s).1).isDetached
      = (s.isDetached || decide (60 ≤ s.stretchStartY - e.y)) := by
  by_cases hdet : s.isDetached
  · simp [JsB.drag, hd, hdet]
  · simp only [Bool.not_eq_true] at hdet
    simp only [JsB.drag, hd, hdet, Bool.true_eq_false, if_false,
      Bool.false_eq_true, Bool.false_or]
    by_cases h10 : s.stretchStartY - e.y > 10
    · rw [if_pos h10]
      by_cases h60 : 60 ≤ min (s.stretchStartY - e.y) s.maxStretch
      · rw [if_pos (by simpa [hm, ht] using h60)]
        have : 60 ≤ s.stretchStartY - e.y := by
          rw [hm, le_min_iff] at h60; exact h60.1
        simp [JsB.detachWindow, hdet, this]
      · rw [if_neg (by simpa [hm, ht] using h60)]
        have : ¬ 60 ≤ s.stretchStartY - e.y := by
          rw [hm, le_min_iff] at h60
          intro hc; exact h60 ⟨hc, by norm_num⟩
        simp [hdet, this]
    · rw [if_neg h10]
      have : ¬ 60 ≤ s.stretchStartY - e.y := by intro hc; exact h10 (by linarith)
      simp [hdet, this]

/-- A folded run of JsB move events is detached exactly when the initial
state was or some event's upward displacement reaches 60px. -/
theorem JsB_drag_fold_isDetached (env : Env) (es : List PEvent) (s : WState)
    (hd : s.isDragging = true) (hm : s.maxStretch = 80)
    (ht : s.snapThreshold = 60) :
    ((es.foldl (fun t e => (JsB.drag env e t).1) s).isDetached)
      = (s.isDetached || es.any (fun e => decide (60 ≤ s.stretchStartY - e.y))) := by
  induction es generalizing s with
  | nil => simp
  | cons e es ih =>
    simp only [List.foldl_cons, List.any_cons]
    have hf := JsB_drag_fields env e s
    rw [ih ((JsB.drag env e s).1) (by rw [hf.1, hd]) (by rw [hf.2.2.1, hm])
      (by rw [hf.2.2.2, ht]), JsB_drag_isDetached env e s hd hm ht, hf.2.1]
    cases s.isDetached <;> simp

/-- Claim C5: with `maxStretch = 80` and `snapThreshold = 60`, a sequence
of move events processed while attached leaves the window detached
exactly when some event's cumulative upward displacement reaches 60px —
applied to every prefix of the gesture, this says the transition happens
at the first move event whose displacement reaches 60px (mid-gesture),
not at the gesture's final displacement. -/
theorem c5_detach_at_threshold (env : Env) (s : WState) (es : List PEvent)
    (hd : s.isDragging = true) (ha : s.isDetached = false)
    (hm : s.maxStretch = 80) (ht : s.snapThreshold = 60) :
    ((es.foldl (fun t e => (JsB.drag env e t).1) s).isDetached = true)
      ↔ ∃ e ∈ es, 60 ≤ s.stretchStartY - e.y := by
  rw [JsB_drag_fold_isDetached env es s hd hm ht, ha]
  simp

/-- Witness for C5: a 70px upward gesture (displacements 30, 60, 70 from
`stretchStartY = 100`); the run is detached, and its 30px prefix is not. -/
theorem c5_detach_at_threshold_witness :
    ((([⟨200, 70⟩, ⟨200, 40⟩, ⟨200, 30⟩] :
        List PEvent).foldl (fun t e => (JsB.drag env0 e t).1) base).isDetached = true) ∧
    ¬ ((([⟨200, 70⟩] :
        List PEvent).foldl (fun t e => (JsB.drag env0 e t).1) base).isDetached = true) := by
  constructor
  · exact (c5_detach_at_threshold env0 base _ rfl rfl rfl rfl).mpr
      ⟨⟨200, 40⟩, by simp, by norm_num [base]⟩
  · rw [c5_detach_at_threshold env0 base _ rfl rfl rfl rfl]
    rintro ⟨e, he, hge⟩
    simp only [List.mem_singleton] at he
    rw [he] at hge
    norm_num [base] at hge

/-- Claim C1 (code defect): releasing a detached drag with tracked
velocity (5, 5) hands the integrator a ZEROED velocity — the JsB
`endDrag` calls `startPhysics()`, whose initial `stopPhysics()` zeroes
`this.velocity` unconditionally before the interval is scheduled, so the
loop's first step (and the slam check evaluated right after) sees
velocity (0, 0).  The part_000 `startPhysics()` preserves the velocity,
matching the claimed (and evidently intended) behaviour. -/
theorem c1_handoff_zeroes_velocity :
    sHandoff.vx = 5 ∧ sHandoff.vy = 5 ∧
    (JsB.endDrag env0 sHandoff).1.vx = 0 ∧
    (JsB.endDrag env0 sHandoff).1.vy = 0 ∧
    (JsB.endDrag env0 sHandoff).1.physicsOn = true ∧
    (P0.startPhysics { sHandoff with isDragging := false }).vx = 5 ∧
    (P0.startPhysics { sHandoff with isDragging := false }).physicsOn = true := by
  refine ⟨rfl, rfl, ?_, ?_, ?_, ?_, ?_⟩ <;>
    norm_num [JsB.endDrag, JsB.startPhysics, JsB.checkForSlamReattach,
      JsB.reattachWindow, JsB.snapBack, P0.startPhysics, stopPhysics, speedSq,
      env0, base, sHandoff]

/-- Claim C4 fails as stated for the drag-release (slam) check of
part_001: a detached window at rest (speed 0) with its bottom edge at the
viewport bottom — inside the dock zone — is NOT reattached, because that
check additionally requires speed > 8. -/
theorem c4_counterexample :
    sDockRest.isDetached = true ∧ sDockRest.vx = 0 ∧ sDockRest.vy = 0 ∧
    |sDockRest.y + env0.offsetHeight - env0.innerHeight| < 80 ∧
    P1.checkForSlamReattach env0 sDockRest = (sDockRest, []) := by
  refine ⟨rfl, rfl, rfl, by norm_num [sDockRest, base, env0], ?_⟩
  norm_num [P1.checkForSlamReattach, speedSq, sDockRest, base, env0]

/-- Claim C4 as amended: the CONTINUOUS auto-reattach checks (JsB zone
`innerHeight - 100`, part_000 zone `innerHeight - 80`) always reattach a
detached window at speed 0 whose bottom edge is inside their dock zone,
and never reattach outside their zone regardless of speed; the
drag-release slam check of part_001 also never fires outside its zone,
but at speed 0 it never reattaches even inside the zone (it requires
speed > 8). -/
theorem c4_amended (env : Env) (s : WState) :
    (s.isDetached = true → s.vx = 0 → s.vy = 0 →
        s.y + env.offsetHeight ≥ env.innerHeight - 100 →
        (JsB.checkForAutoReattach env s).1.isDetached = false ∧
        (JsB.checkForAutoReattach env s).2 = [WinEvent.windowReattached]) ∧
    (s.y + env.offsetHeight < env.innerHeight - 100 →
        JsB.checkForAutoReattach env s = (s, [])) ∧
    (s.isDetached = true → s.vx = 0 → s.vy = 0 →
        s.y + env.offsetHeight ≥ env.innerHeight - 80 →
        (P0.checkForAutoReattach env s).1.isDetached = false ∧
        (P0.checkForAutoReattach env s).2 = [WinEvent.windowReattached]) ∧
    (s.y + env.offsetHeight < env.innerHeight - 80 →
        P0.checkForAutoReattach env s = (s, [])) ∧
    (s.vx = 0 → s.vy = 0 → P1.checkForSlamReattach env s = (s, [])) ∧
    (¬ |s.y + env.offsetHeight - env.innerHeight| < 80 →
        P1.checkForSlamReattach env s = (s, [])) := by
  refine ⟨?_, ?_, ?_, ?_, ?_, ?_⟩
  · intro hdet hvx hvy hzone
    have hsp : speedSq s < 4 := by rw [speedSq, hvx, hvy]; norm_num
    simp only [JsB.checkForAutoReattach, if_pos (And.intro hzone hsp),
      JsB.reattachWindow, hdet]
    simp
  · intro hzone
    simp only [JsB.checkForAutoReattach]
    rw [if_neg]
    rintro ⟨h1, -⟩
    linarith
  · intro hdet hvx hvy hzone
    have hsp : speedSq s < 4 := by rw [speedSq, hvx, hvy]; norm_num
    simp only [P0.checkForAutoReattach, if_pos (And.intro hzone hsp),
      P0.reattachWindow, hdet]
    simp
  · intro hzone
    simp only [P0.checkForAutoReattach]
    rw [if_neg]
    rintro ⟨h1, -⟩
    linarith
  · intro hvx hvy
    simp only [P1.checkForSlamReattach]
    rw [if_neg]
    rintro ⟨-, h2⟩
    rw [speedSq, hvx, hvy] at h2
    norm_num at h2
  · intro hzone
    simp only [P1.checkForSlamReattach]
    rw [if_neg]
    rintro ⟨h1, -⟩
    exact hzone h1

/-- Witness for the amended C4: at `sDockRest` (resting on the viewport
bottom) the continuous checks reattach and the slam check does not; at
`sFlight` (bottom edge 300px above the viewport bottom) no check fires. -/
theorem c4_amended_witness :
    ((JsB.checkForAutoReattach env0 sDockRest).1.isDetached = false ∧
      (JsB.checkForAutoReattach env0 sDockRest).2 = [WinEvent.windowReattached]) ∧
    ((P0.checkForAutoReattach env0 sDockRest).1.isDetached = false ∧
      (P0.checkForAutoReattach env0 sDockRest).2 = [WinEvent.windowReattached]) ∧
    P1.checkForSlamReattach env0 sDockRest = (sDockRest, []) ∧
    JsB.checkForAutoReattach env0 sFlight = (sFlight, []) ∧
    P0.checkForAutoReattach env0 sFlight = (sFlight, []) ∧
    P1.checkForSlamReattach env0 sFlight = (sFlight, []) := by
  refine ⟨(c4_amended env0 sDockRest).1 rfl rfl rfl (by norm_num [sDockRest, base, env0]),
    (c4_amended env0 sDockRest).2.2.1 rfl rfl rfl (by norm_num [sDockRest, base, env0]),
    (c4_amended env0 sDockRest).2.2.2.2.1 rfl rfl,
    (c4_amended env0 sFlight).2.1 (by norm_num [sFlight, base, env0]),
    (c4_amended env0 sFlight).2.2.2.1 (by norm_num [sFlight, base, env0]),
    (c4_amended env0 sFlight).2.2.2.2.2 (by norm_num [sFlight, base, env0])⟩

/-- The boundary handling never yields a coordinate beyond a nonnegative
bound. -/
theorem bounceAxis_fst_le (b p v β : ℚ) (hb : 0 ≤ b) :
    (bounceAxis b p v β).1 ≤ b := by
  unfold bounceAxis
  dsimp only
  split_ifs with h1 h2
  · exact hb
  · exact le_rfl
  · dsimp only; linarith

/-- Claim C6 fails as stated: at the right boundary (`x = maxX = 500`)
with `vx = 5` and `bounce = 0.3`, the full physics step leaves
`vx = -1.425`, not `-1.5`, because friction (0.95) is applied after the
bounce; the position is clamped to the boundary. -/
theorem c6_counterexample :
    (JsA.updatePhysics env0 sBounce).x = 500 ∧
    (JsA.updatePhysics env0 sBounce).vx = -(57/40) ∧
    (JsA.updatePhysics env0 sBounce).vx ≠ -(3/2) := by
  refine ⟨?_, ?_, ?_⟩ <;>
    norm_num [JsA.updatePhysics, bounceAxis, stopPhysics, env0, base, sBounce, abs]

/-- Claim C6 as amended: at the right boundary with `vx = 5` and
`bounce = 0.3`, the boundary handling clamps the position to the boundary
and reflects the velocity to `-1.5`; the step then applies friction 0.95
on top, so the step's resulting `vx` is `-1.5 * 0.95 = -1.425`; and in
general a step never moves the window beyond the right boundary. -/
theorem c6_amended :
    (bounceAxis (env0.innerWidth - env0.offsetWidth) sBounce.x sBounce.vx sBounce.bounce).1 = 500 ∧
    (bounceAxis (env0.innerWidth - env0.offsetWidth) sBounce.x sBounce.vx sBounce.bounce).2 = -(3/2) ∧
    (JsA.updatePhysics env0 sBounce).x = 500 ∧
    (JsA.updatePhysics env0 sBounce).vx = -(3/2) * sBounce.friction ∧
    (∀ (env : Env) (s : WState), 0 ≤ env.innerWidth - env.offsetWidth →
        (JsA.updatePhysics env s).x ≤ env.innerWidth - env.offsetWidth ∨
        (JsA.updatePhysics env s).x = s.x) := by
  refine ⟨?_, ?_, ?_, ?_, ?_⟩
  · norm_num [bounceAxis, env0, base, sBounce]
  · norm_num [bounceAxis, env0, base, sBounce]
  · norm_num [JsA.updatePhysics, bounceAxis, stopPhysics, env0, base, sBounce, abs]
  · norm_num [JsA.updatePhysics, bounceAxis, stopPhysics, env0, base, sBounce, abs]
  · intro env s h
    unfold JsA.updatePhysics
    dsimp only
    split_ifs
    · right; rfl
    · right; rfl
    · left; exact bounceAxis_fst_le _ s.x s.vx s.bounce h

/-- Witness for the amended C6: the general no-overshoot conjunct applied
to the concrete boundary state. -/
theorem c6_amended_witness :
    0 ≤ env0.innerWidth - env0.offsetWidth ∧
    ((JsA.updatePhysics env0 sBounce).x ≤ env0.innerWidth - env0.offsetWidth ∨
      (JsA.updatePhysics env0 sBounce).x = sBounce.x) :=
  ⟨by norm_num [env0], c6_amended.2.2.2.2 env0 sBounce (by norm_num [env0])⟩

/-- The boundary handling never increases the magnitude of a velocity
component (a bounce multiplies it by the damping factor `β ≤ 1`). -/
theorem bounceAxis_abs_le (b p v β : ℚ) (h0 : 0 ≤ β) (h1 : β ≤ 1) :
    |(bounceAxis b p v β).2| ≤ |v| := by
  unfold bounceAxis
  dsimp only
  split_ifs
  · dsimp only
    rw [abs_mul, abs_neg, abs_of_nonneg h0]
    calc |v| * β ≤ |v| * 1 := mul_le_mul_of_nonneg_left h1 (abs_nonneg v)
      _ = |v| := mul_one _
  · dsimp only
    rw [abs_mul, abs_neg, abs_of_nonneg h0]
    calc |v| * β ≤ |v| * 1 := mul_le_mul_of_nonneg_left h1 (abs_nonneg v)
      _ = |v| := mul_one _
  · exact le_rfl

/-- One JsA physics step multiplies the magnitude of each velocity
component by at most the friction factor (bounces only dampen further,
and the stopping branches zero the velocity outright). -/
theorem JsA_update_abs (env : Env) (s : WState)
    (hf0 : 0 ≤ s.friction) (hb0 : 0 ≤ s.bounce) (hb1 : s.bounce ≤ 1) :
    |(JsA.updatePhysics env s).vx| ≤ s.friction * |s.vx| ∧
    |(JsA.updatePhysics env s).vy| ≤ s.friction * |s.vy| := by
  unfold JsA.updatePhysics
  dsimp only
  split_ifs
  · constructor <;>
      · show |(0 : ℚ)| ≤ _
        rw [abs_zero]
        exact mul_nonneg hf0 (abs_nonneg _)
  · constructor <;>
      · show |(0 : ℚ)| ≤ _
        rw [abs_zero]
        exact mul_nonneg hf0 (abs_nonneg _)
  · constructor
    · show |(bounceAxis _ s.x s.vx s.bounce).2 * s.friction| ≤ _
      rw [abs_mul, abs_of_nonneg hf0, mul_comm s.friction |s.vx|]
      exact mul_le_mul_of_nonneg_right (bounceAxis_abs_le _ _ _ _ hb0 hb1) hf0
    · show |(bounceAxis _ s.y s.vy s.bounce).2 * s.friction| ≤ _
      rw [abs_mul, abs_of_nonneg hf0, mul_comm s.friction |s.vy|]
      exact mul_le_mul_of_nonneg_right (bounceAxis_abs_le _ _ _ _ hb0 hb1) hf0

/-- A JsA physics step keeps the constructor fields and, whenever it shuts
the interval down, it also zeroes the velocity. -/
theorem JsA_update_fields (env : Env) (t : WState) (hpo : t.physicsOn = true) :
    (JsA.updatePhysics env t).friction = t.friction ∧
    (JsA.updatePhysics env t).bounce = t.bounce ∧
    ((JsA.updatePhysics env t).physicsOn = false →
      (JsA.updatePhysics env t).vx = 0 ∧ (JsA.updatePhysics env t).vy = 0) := by
  unfold JsA.updatePhysics
  dsimp only
  split_ifs
  · exact ⟨rfl, rfl, fun _ => ⟨rfl, rfl⟩⟩
  · exact ⟨rfl, rfl, fun _ => ⟨rfl, rfl⟩⟩
  · refine ⟨rfl, rfl, ?_⟩
    intro h
    dsimp only at h
    simp [hpo] at h

/-- When both velocity components are already below the stop threshold,
a JsA physics step always ends in `stopPhysics`. -/
theorem JsA_update_stops (env : Env) (t : WState)
    (hf0 : 0 ≤ t.friction) (hf1 : t.friction ≤ 1)
    (hb0 : 0 ≤ t.bounce) (hb1 : t.bounce ≤ 1)
    (hvx : |t.vx| < 1/10) (hvy : |t.vy| < 1/10) :
    JsA.updatePhysics env t = stopPhysics t := by
  unfold JsA.updatePhysics
  dsimp only
  split_ifs with hg hstop
  · rfl
  · rfl
  · exfalso
    apply hstop
    constructor
    · calc |(bounceAxis (env.innerWidth - env.offsetWidth) t.x t.vx t.bounce).2 * t.friction|
          = |(bounceAxis (env.innerWidth - env.offsetWidth) t.x t.vx t.bounce).2| * t.friction := by
            rw [abs_mul, abs_of_nonneg hf0]
        _ ≤ |t.vx| * t.friction :=
            mul_le_mul_of_nonneg_right (bounceAxis_abs_le _ _ _ _ hb0 hb1) hf0
        _ ≤ |t.vx| * 1 := mul_le_mul_of_nonneg_left hf1 (abs_nonneg _)
        _ = |t.vx| := mul_one _
        _ < 1/10 := hvx
    · calc |(bounceAxis (env.innerHeight - env.offsetHeight) t.y t.vy t.bounce).2 * t.friction|
          = |(bounceAxis (env.innerHeight - env.offsetHeight) t.y t.vy t.bounce).2| * t.friction := by
            rw [abs_mul, abs_of_nonneg hf0]
        _ ≤ |t.vy| * t.friction :=
            mul_le_mul_of_nonneg_right (bounceAxis_abs_le _ _ _ _ hb0 hb1) hf0
        _ ≤ |t.vy| * 1 := mul_le_mul_of_nonneg_left hf1 (abs_nonneg _)
        _ = |t.vy| := mul_one _
        _ < 1/10 := hvy

/-- Invariant of the JsA physics loop: the constructor fields never
change, each velocity component is bounded by `friction ^ n` times the
largest initial component, and a shut-down loop has zero velocity. -/
theorem JsA_run_inv (env : Env) (s : WState)
    (hf0 : 0 < s.friction) (hf1 : s.friction < 1)
    (hb0 : 0 ≤ s.bounce) (hb1 : s.bounce ≤ 1)
    (hon : s.physicsOn = true) :
    ∀ n : Nat,
      (JsA.run env n s).friction = s.friction ∧
      (JsA.run env n s).bounce = s.bounce ∧
      |(JsA.run env n s).vx| ≤ s.friction ^ n * max |s.vx| |s.vy| ∧
      |(JsA.run env n s).vy| ≤ s.friction ^ n * max |s.vx| |s.vy| ∧
      ((JsA.run env n s).physicsOn = false →
        (JsA.run env n s).vx = 0 ∧ (JsA.run env n s).vy = 0) := by
  have hM0 : 0 ≤ max |s.vx| |s.vy| := le_trans (abs_nonneg _) (le_max_left _ _)
  intro n
  induction n with
  | zero =>
    refine ⟨rfl, rfl, ?_, ?_, ?_⟩
    · rw [show JsA.run env 0 s = s from rfl, pow_zero, one_mul]
      exact le_max_left _ _
    · rw [show JsA.run env 0 s = s from rfl, pow_zero, one_mul]
      exact le_max_right _ _
    · intro h
      rw [show JsA.run env 0 s = s from rfl, hon] at h
      cases h
  | succ n ih =>
    obtain ⟨hfr, hbn, hvx, hvy, hstop⟩ := ih
    have hpow : (0:ℚ) ≤ s.friction ^ (n + 1) * max |s.vx| |s.vy| :=
      mul_nonneg (pow_nonneg (le_of_lt hf0) _) hM0
    simp only [JsA.run]
    by_cases hpo : (JsA.run env n s).physicsOn = true
    · rw [JsA.tick, if_pos hpo]
      have habs := JsA_update_abs env (JsA.run env n s)
        (by rw [hfr]; exact le_of_lt hf0) (by rw [hbn]; exact hb0)
        (by rw [hbn]; exact hb1)
      have hfields := JsA_update_fields env (JsA.run env n s) hpo
      refine ⟨by rw [hfields.1, hfr], by rw [hfields.2.1, hbn], ?_, ?_, hfields.2.2⟩
      · calc |(JsA.updatePhysics env (JsA.run env n s)).vx|
            ≤ (JsA.run env n s).friction * |(JsA.run env n s).vx| := habs.1
          _ = s.friction * |(JsA.run env n s).vx| := by rw [hfr]
          _ ≤ s.friction * (s.friction ^ n * max |s.vx| |s.vy|) :=
              mul_le_mul_of_nonneg_left hvx (le_of_lt hf0)
          _ = s.friction ^ (n + 1) * max |s.vx| |s.vy| := by ring
      · calc |(JsA.updatePhysics env (JsA.run env n s)).vy|
            ≤ (JsA.run env n s).friction * |(JsA.run env n s).vy| := habs.2
          _ = s.friction * |(JsA.run env n s).vy| := by rw [hfr]
          _ ≤ s.friction * (s.friction ^ n * max |s.vx| |s.vy|) :=
              mul_le_mul_of_nonneg_left hvy (le_of_lt hf0)
          _ = s.friction ^ (n + 1) * max |s.vx| |s.vy| := by ring
    · rw [JsA.tick, if_neg hpo]
      have hz := hstop (Bool.eq_false_iff.mpr hpo)
      refine ⟨hfr, hbn, ?_, ?_, fun _ => hz⟩
      · rw [hz.1, abs_zero]; exact hpow
      · rw [hz.2, abs_zero]; exact hpow

/-- Claim C3: with no gravity (the JsA integrator has no gravity term)
and bounce and friction strictly between 0 and 1, every physics step
strictly decreases the window's squared speed (hence its speed) as long
as the velocity is nonzero, and from any initial velocity the running
loop reaches, in finitely many ticks, a state where the interval is shut
down by the `|vx| < 0.1 and |vy| < 0.1` test and the velocity is exactly
`(0, 0)` (zeroed by `stopPhysics`). -/
theorem c3_dissipation_and_termination (env : Env) (s : WState)
    (hf0 : 0 < s.friction) (hf1 : s.friction < 1)
    (hb0 : 0 < s.bounce) (hb1 : s.bounce < 1) :
    (¬ (s.vx = 0 ∧ s.vy = 0) →
        speedSq (JsA.updatePhysics env s) < speedSq s) ∧
    (s.physicsOn = true →
        ∃ n, (JsA.run env n s).physicsOn = false ∧
          (JsA.run env n s).vx = 0 ∧ (JsA.run env n s).vy = 0) := by
  constructor
  · intro hne
    have habs := JsA_update_abs env s (le_of_lt hf0) (le_of_lt hb0) (le_of_lt hb1)
    have hx2 : (JsA.updatePhysics env s).vx * (JsA.updatePhysics env s).vx
        ≤ s.friction * s.friction * (s.vx * s.vx) := by
      have e : s.friction * |s.vx| * (s.friction * |s.vx|)
          = s.friction * s.friction * (s.vx * s.vx) := by
        rw [mul_mul_mul_comm, abs_mul_abs_self]
      rw [← e]
      have h := mul_self_le_mul_self (abs_nonneg _) habs.1
      simpa [abs_mul_abs_self] using h
    have hy2 : (JsA.updatePhysics env s).vy * (JsA.updatePhysics env s).vy
        ≤ s.friction * s.friction * (s.vy * s.vy) := by
      have e : s.friction * |s.vy| * (s.friction * |s.vy|)
          = s.friction * s.friction * (s.vy * s.vy) := by
        rw [mul_mul_mul_comm, abs_mul_abs_self]
      rw [← e]
      have h := mul_self_le_mul_self (abs_nonneg _) habs.2
      simpa [abs_mul_abs_self] using h
    have hpos : 0 < s.vx * s.vx + s.vy * s.vy := by
      rcases not_and_or.mp hne with h | h
      · have := mul_self_pos.mpr h
        nlinarith [mul_self_nonneg s.vy]
      · have := mul_self_pos.mpr h
        nlinarith [mul_self_nonneg s.vx]
    have h1f : 0 < 1 - s.friction * s.friction := by nlinarith
    simp only [speedSq]
    nlinarith [mul_pos h1f hpos]
  · intro hon
    have hM0 : 0 ≤ max |s.vx| |s.vy| := le_trans (abs_nonneg _) (le_max_left _ _)
    obtain ⟨N, hN⟩ := exists_pow_lt_of_lt_one
      (show (0:ℚ) < 1/10 / (max |s.vx| |s.vy| + 1) by positivity) hf1
    have hbound : s.friction ^ N * max |s.vx| |s.vy| < 1/10 := by
      have h1 : s.friction ^ N * max |s.vx| |s.vy|
          ≤ s.friction ^ N * (max |s.vx| |s.vy| + 1) :=
        mul_le_mul_of_nonneg_left (by linarith) (pow_nonneg (le_of_lt hf0) _)
      have h2 : s.friction ^ N * (max |s.vx| |s.vy| + 1)
          < (1/10 / (max |s.vx| |s.vy| + 1)) * (max |s.vx| |s.vy| + 1) :=
        mul_lt_mul_of_pos_right hN (by linarith)
      have h3 : (1/10 / (max |s.vx| |s.vy| + 1)) * (max |s.vx| |s.vy| + 1)
          = 1/10 := by
        field_simp
        ring
      linarith
    have inv := JsA_run_inv env s hf0 hf1 (le_of_lt hb0) (le_of_lt hb1) hon
    by_cases hNon : (JsA.run env N s).physicsOn = true
    · refine ⟨N + 1, ?_⟩
      obtain ⟨hfr, hbn, hvx, hvy, -⟩ := inv N
      have hvx1 : |(JsA.run env N s).vx| < 1/10 := lt_of_le_of_lt hvx hbound
      have hvy1 : |(JsA.run env N s).vy| < 1/10 := lt_of_le_of_lt hvy hbound
      have hstep : JsA.updatePhysics env (JsA.run env N s)
          = stopPhysics (JsA.run env N s) :=
        JsA_update_stops env (JsA.run env N s)
          (by rw [hfr]; exact le_of_lt hf0) (by rw [hfr]; exact le_of_lt hf1)
          (by rw [hbn]; exact le_of_lt hb0) (by rw [hbn]; exact le_of_lt hb1)
          hvx1 hvy1
      rw [show JsA.run env (N + 1) s = JsA.tick env (JsA.run env N s) from rfl,
        JsA.tick, if_pos hNon, hstep]
      exact ⟨rfl, rfl, rfl⟩
    · refine ⟨N, ?_, ?_⟩
      · exact Bool.eq_false_iff.mpr hNon
      · exact (inv N).2.2.2.2 (Bool.eq_false_iff.mpr hNon)

/-- Witness for C3: the JsA constants (`friction = 0.95`, `bounce = 0.3`)
lie in `(0, 1)`, a step from velocity `(5, 3)` strictly dissipates, and
the loop from that state terminates at rest. -/
theorem c3_dissipation_and_termination_witness :
    speedSq (JsA.updatePhysics env0 sFlight) < speedSq sFlight ∧
    ∃ n, (JsA.run env0 n sFlight).physicsOn = false ∧
      (JsA.run env0 n sFlight).vx = 0 ∧ (JsA.run env0 n sFlight).vy = 0 := by
  have h := c3_dissipation_and_termination env0 sFlight
    (by norm_num [sFlight, base]) (by norm_num [sFlight, base])
    (by norm_num [sFlight, base]) (by norm_num [sFlight, base])
  exact ⟨h.1 (by norm_num [sFlight, base]), h.2 rfl⟩

/-- Sub-threshold deltas leave the strict shake accumulators untouched,
so the loop factors through the qualifying deltas. -/
theorem shake_foldl_filter (th : ℚ) (ds : List ℚ) (st : ShakeStats) :
    ds.foldl (shakeUpdate th) st
      = (ds.filter (fun d => th < |d|)).foldl shakeUpdateQ st := by
  induction ds generalizing st with
  | nil => rfl
  | cons d ds ih =>
    by_cases h : th < |d|
    · rw [List.foldl_cons, List.filter_cons_of_pos (by simpa using h),
        List.foldl_cons, shakeUpdate, if_pos h, ih]
    · rw [List.foldl_cons, List.filter_cons_of_neg (by simpa using h),
        shakeUpdate, if_neg h, ih]

/-- One qualifying iteration bumps `verticalMovements` by one. -/
theorem shakeUpdateQ_vm (st : ShakeStats) (d : ℚ) :
    (shakeUpdateQ st d).verticalMovements = st.verticalMovements + 1 := by
  unfold shakeUpdateQ
  dsimp only
  split_ifs <;> rfl

/-- One qualifying iteration bumps `upwardMovement` on upward deltas. -/
theorem shakeUpdateQ_up (st : ShakeStats) (d : ℚ) :
    (shakeUpdateQ st d).upwardMovement
      = st.upwardMovement + (if d < 0 then 1 else 0) := by
  unfold shakeUpdateQ
  dsimp only
  split_ifs <;> rfl

/-- One qualifying iteration adds `|d|` to the total distance. -/
theorem shakeUpdateQ_total (st : ShakeStats) (d : ℚ) :
    (shakeUpdateQ st d).totalVerticalDistance
      = st.totalVerticalDistance + |d| := by
  unfold shakeUpdateQ
  dsimp only
  split_ifs <;> rfl

/-- One qualifying iteration maxes `maxUpwardDelta` on upward deltas. -/
theorem shakeUpdateQ_maxUp (st : ShakeStats) (d : ℚ) :
    (shakeUpdateQ st d).maxUpwardDelta
      = if d < 0 then max st.maxUpwardDelta |d| else st.maxUpwardDelta := by
  unfold shakeUpdateQ
  dsimp only
  split_ifs <;> rfl

/-- One qualifying iteration extends or resets the upward streak. -/
theorem shakeUpdateQ_consec (st : ShakeStats) (d : ℚ) :
    (shakeUpdateQ st d).consecutiveUpward
      = if d < 0 then st.consecutiveUpward + 1 else 0 := by
  unfold shakeUpdateQ
  dsimp only
  split_ifs <;> rfl

/-- One qualifying iteration maxes `maxConsecutiveUpward` with the
extended streak on upward deltas. -/
theorem shakeUpdateQ_maxConsec (st : ShakeStats) (d : ℚ) :
    (shakeUpdateQ st d).maxConsecutiveUpward
      = if d < 0 then max st.maxConsecutiveUpward (st.consecutiveUpward + 1)
        else st.maxConsecutiveUpward := by
  unfold shakeUpdateQ
  dsimp only
  split_ifs <;> rfl

/-- The folded `verticalMovements` counts the qualifying deltas. -/
theorem shakeQ_fold_vm (qs : List ℚ) : ∀ st : ShakeStats,
    (qs.foldl shakeUpdateQ st).verticalMovements
      = st.verticalMovements + qs.length := by
  induction qs with
  | nil => intro st; rfl
  | cons d qs ih =>
    intro st
    rw [List.foldl_cons, ih, shakeUpdateQ_vm, List.length_cons]
    omega

/-- The folded `upwardMovement` counts the upward qualifying deltas. -/
theorem shakeQ_fold_up (qs : List ℚ) : ∀ st : ShakeStats,
    (qs.foldl shakeUpdateQ st).upwardMovement
      = st.upwardMovement + (qs.filter (fun d => d < 0)).length := by
  induction qs with
  | nil => intro st; rfl
  | cons d qs ih =>
    intro st
    rw [List.foldl_cons, ih, shakeUpdateQ_up, List.filter_cons]
    by_cases hd : d < 0
    · simp [hd]
      omega
    · simp [hd]

/-- The folded total distance sums the qualifying deltas' magnitudes. -/
theorem shakeQ_fold_total (qs : List ℚ) : ∀ st : ShakeStats,
    (qs.foldl shakeUpdateQ st).totalVerticalDistance
      = st.totalVerticalDistance + (qs.map (fun d => |d|)).sum := by
  induction qs with
  | nil => intro st; simp
  | cons d qs ih =>
    intro st
    rw [List.foldl_cons, ih, shakeUpdateQ_total, List.map_cons, List.sum_cons]
    ring

/-- The folded `maxUpwardDelta` exceeds a cutoff exactly when the initial
value does or some upward qualifying delta does. -/
theorem shakeQ_fold_maxUp (c : ℚ) (qs : List ℚ) : ∀ st : ShakeStats,
    (c < (qs.foldl shakeUpdateQ st).maxUpwardDelta
      ↔ c < st.maxUpwardDelta ∨ ∃ d ∈ qs, d < 0 ∧ c < |d|) := by
  induction qs with
  | nil => intro st; simp
  | cons d qs ih =>
    intro st
    rw [List.foldl_cons, ih, shakeUpdateQ_maxUp]
    by_cases hd : d < 0
    · rw [if_pos hd, lt_max_iff]
      simp only [List.mem_cons]
      constructor
      · rintro ((h | h) | ⟨e, he, h1, h2⟩)
        · exact Or.inl h
        · exact Or.inr ⟨d, Or.inl rfl, hd, h⟩
        · exact Or.inr ⟨e, Or.inr he, h1, h2⟩
      · rintro (h | ⟨e, (rfl | he), h1, h2⟩)
        · exact Or.inl (Or.inl h)
        · exact Or.inl (Or.inr h2)
        · exact Or.inr ⟨e, he, h1, h2⟩
    · rw [if_neg hd]
      simp only [List.mem_cons]
      constructor
      · rintro (h | ⟨e, he, h1, h2⟩)
        · exact Or.inl h
        · exact Or.inr ⟨e, Or.inr he, h1, h2⟩
      · rintro (h | ⟨e, (rfl | he), h1, h2⟩)
        · exact Or.inl h
        · exact absurd h1 hd
        · exact Or.inr ⟨e, he, h1, h2⟩

/-- The folded `maxConsecutiveUpward` reaches 2 exactly when it already
had, or a positive incoming streak meets an upward first delta, or two
adjacent qualifying deltas are upward. -/
theorem shakeQ_fold_consec (qs : List ℚ) : ∀ st : ShakeStats,
    (2 ≤ (qs.foldl shakeUpdateQ st).maxConsecutiveUpward
      ↔ 2 ≤ st.maxConsecutiveUpward ∨
        (1 ≤ st.consecutiveUpward ∧ headNegB qs = true) ∨
        hasTwoConsecUpward qs = true) := by
  induction qs with
  | nil =>
    intro st
    simp [headNegB, hasTwoConsecUpward]
  | cons d qs ih =>
    intro st
    rw [List.foldl_cons, ih, shakeUpdateQ_maxConsec, shakeUpdateQ_consec]
    by_cases hd : d < 0
    · rw [if_pos hd, if_pos hd]
      have h2 : (2 ≤ st.maxConsecutiveUpward ⊔ (st.consecutiveUpward + 1))
          ↔ 2 ≤ st.maxConsecutiveUpward ∨ 1 ≤ st.consecutiveUpward := by
        rw [le_max_iff]
        omega
      have h1 : 1 ≤ st.consecutiveUpward + 1 := by omega
      rw [h2]
      simp only [hasTwoConsecUpward, headNegB, hd, h1]
      simp [hd]
      tauto
    · rw [if_neg hd, if_neg hd]
      simp only [hasTwoConsecUpward, headNegB]
      simp [hd]

/-- Sub-threshold deltas leave the loose shake counters untouched. -/
theorem JsC_foldl_filter (th : ℚ) (ds : List ℚ) (st : Nat × Nat) :
    ds.foldl (JsC.shakeUpdate th) st
      = (ds.filter (fun d => th < |d|)).foldl JsC.shakeUpdateQ st := by
  induction ds generalizing st with
  | nil => rfl
  | cons d ds ih =>
    by_cases h : th < |d|
    · rw [List.foldl_cons, List.filter_cons_of_pos (by simpa using h),
        List.foldl_cons, JsC.shakeUpdate, if_pos h, ih]
      rfl
    · rw [List.foldl_cons, List.filter_cons_of_neg (by simpa using h),
        JsC.shakeUpdate, if_neg h, ih]

/-- The folded first loose counter counts the qualifying deltas. -/
theorem JsC_fold_fst (qs : List ℚ) : ∀ st : Nat × Nat,
    (qs.foldl JsC.shakeUpdateQ st).1 = st.1 + qs.length := by
  induction qs with
  | nil => intro st; rfl
  | cons d qs ih =>
    intro st
    rw [List.foldl_cons, ih, List.length_cons]
    show (JsC.shakeUpdateQ st d).1 + qs.length = _
    rw [show (JsC.shakeUpdateQ st d).1 = st.1 + 1 from rfl]
    omega

/-- The folded second loose counter counts the upward qualifying deltas. -/
theorem JsC_fold_snd (qs : List ℚ) : ∀ st : Nat × Nat,
    (qs.foldl JsC.shakeUpdateQ st).2
      = st.2 + (qs.filter (fun d => d < 0)).length := by
  induction qs with
  | nil => intro st; rfl
  | cons d qs ih =>
    intro st
    rw [List.foldl_cons, ih, List.filter_cons]
    by_cases hd : d < 0
    · simp only [JsC.shakeUpdateQ]
      simp [hd]
      omega
    · simp only [JsC.shakeUpdateQ]
      simp [hd]

/-- Claim C7 fails as stated: a 7-sample buffer of six 40px upward deltas
satisfies all five shake conditions, yet the strict `detectShake` does
not trigger, because it additionally requires at least 8 recorded
samples. -/
theorem c7_counterexample :
    JsA.detectShake 25 ys7 = false ∧
    5 ≤ (qualifyingDeltas 25 ys7).length ∧
    3 ≤ ((qualifyingDeltas 25 ys7).filter (fun d => d < 0)).length ∧
    100 < ((qualifyingDeltas 25 ys7).map (fun d => |d|)).sum ∧
    (∃ d ∈ qualifyingDeltas 25 ys7, d < 0 ∧ 35 < |d|) ∧
    hasTwoConsecUpward (qualifyingDeltas 25 ys7) = true := by
  have hq : qualifyingDeltas 25 ys7 = [-40, -40, -40, -40, -40, -40] := by
    norm_num [qualifyingDeltas, posDeltas, ys7, List.filter, abs]
  refine ⟨?_, ?_, ?_, ?_, ?_, ?_⟩
  · norm_num [JsA.detectShake, ys7]
  · rw [hq]; norm_num
  · rw [hq]; norm_num [List.filter, abs]
  · rw [hq]; norm_num [abs]
  · rw [hq]; exact ⟨-40, by norm_num, by norm_num, by norm_num [abs]⟩
  · rw [hq]; norm_num [hasTwoConsecUpward, headNegB]

/-- Claim C7 as amended: the strict shake detector (JsA) triggers exactly
when the buffer holds at least 8 samples AND the five conditions hold
over the threshold-qualifying consecutive deltas (at least 5 qualifying
deltas, at least 3 of them upward, their magnitudes summing over 100px,
some upward one exceeding 35px, and two adjacent qualifying deltas both
upward); the loose shake detector (JsC) instead triggers exactly when the
buffer holds at least 5 samples, at least 3 deltas qualify and at least 2
of them are upward. -/
theorem c7_amended (threshold : ℚ) (ys : List ℚ) :
    (JsA.detectShake threshold ys = true ↔
      8 ≤ ys.length ∧
      5 ≤ (qualifyingDeltas threshold ys).length ∧
      3 ≤ ((qualifyingDeltas threshold ys).filter (fun d => d < 0)).length ∧
      100 < ((qualifyingDeltas threshold ys).map (fun d => |d|)).sum ∧
      (∃ d ∈ qualifyingDeltas threshold ys, d < 0 ∧ 35 < |d|) ∧
      hasTwoConsecUpward (qualifyingDeltas threshold ys) = true) ∧
    (JsC.detectShake threshold ys = true ↔
      5 ≤ ys.length ∧
      3 ≤ (qualifyingDeltas threshold ys).length ∧
      2 ≤ ((qualifyingDeltas threshold ys).filter (fun d => d < 0)).length) := by
  constructor
  · unfold JsA.detectShake
    split_ifs with hlen
    · simp only [Bool.false_eq_true, false_iff]
      rintro ⟨h8, -⟩
      omega
    · rw [decide_eq_true_eq, shake_foldl_filter]
      unfold qualifyingDeltas
      rw [shakeQ_fold_vm, shakeQ_fold_up, shakeQ_fold_total,
        shakeQ_fold_maxUp, shakeQ_fold_consec]
      simp only [initShakeStats]
      norm_num
      intros
      omega
  · unfold JsC.detectShake
    split_ifs with hlen
    · simp only [Bool.false_eq_true, false_iff]
      rintro ⟨h5, -⟩
      omega
    · rw [decide_eq_true_eq, JsC_foldl_filter]
      unfold qualifyingDeltas
      rw [JsC_fold_fst, JsC_fold_snd]
      norm_num
      intros
      omega

/-- Claim C8: `detachWindow` is idempotent in every variant — on an
already-detached window it returns immediately, changing nothing and
dispatching no event. -/
theorem c8_detach_idempotent (s : WState) (h : s.isDetached = true) :
    JsB.detachWindow s = (s, []) ∧ P1.detachWindow s = (s, []) ∧
    P0.detachWindow s = (s, []) := by
  refine ⟨?_, ?_, ?_⟩ <;>
    simp [JsB.detachWindow, P1.detachWindow, P0.detachWindow, h]

/-- Witness for C8 at the concrete detached resting state. -/
theorem c8_detach_idempotent_witness :
    JsB.detachWindow sDockRest = (sDockRest, []) ∧
    P1.detachWindow sDockRest = (sDockRest, []) ∧
    P0.detachWindow sDockRest = (sDockRest, []) :=
  c8_detach_idempotent sDockRest rfl

/-- Claim C10: `reattachWindow` is idempotent in every variant — on an
already-attached window it returns immediately, changing nothing (flags,
position, velocity, gravity, timer) and dispatching no event. -/
theorem c10_reattach_idempotent (env : Env) (s : WState)
    (h : s.isDetached = false) :
    JsB.reattachWindow env s = (s, []) ∧ P1.reattachWindow env s = (s, []) ∧
    P0.reattachWindow env s = (s, []) := by
  refine ⟨?_, ?_, ?_⟩ <;>
    simp [JsB.reattachWindow, P1.reattachWindow, P0.reattachWindow, h]

/-- Witness for C10 at the concrete attached baseline state. -/
theorem c10_reattach_idempotent_witness :
    JsB.reattachWindow env0 base = (base, []) ∧
    P1.reattachWindow env0 base = (base, []) ∧
    P0.reattachWindow env0 base = (base, []) :=
  c10_reattach_idempotent env0 base rfl

/-- Claim C9: when the live timers are exactly the held handle (the
invariant established at construction, where both are empty), starting
the integrator — whether by the cancel-then-reschedule `startPhysics` of
the JsA and JsB variants or by the no-op-when-running `startPhysics` of
part_000 — re-establishes that correspondence and leaves at most one
live timer, so two physics timers never run concurrently for a window. -/
theorem c9_single_timer (t : TimerSys)
    (h : t.active = t.physicsInterval.toList) :
    ((startPhysicsTStop t).active = (startPhysicsTStop t).physicsInterval.toList ∧
      (startPhysicsTStop t).active.length ≤ 1) ∧
    ((startPhysicsTNoop t).active = (startPhysicsTNoop t).physicsInterval.toList ∧
      (startPhysicsTNoop t).active.length ≤ 1) := by
  cases hpi : t.physicsInterval with
  | none =>
    rw [hpi] at h
    simp only [Option.toList] at h
    refine ⟨⟨?_, ?_⟩, ?_, ?_⟩ <;>
      simp [startPhysicsTStop, startPhysicsTNoop, scheduleT, stopPhysicsT,
        hpi, h, Option.toList]
  | some j =>
    rw [hpi] at h
    simp only [Option.toList] at h
    refine ⟨⟨?_, ?_⟩, ?_, ?_⟩ <;>
      simp [startPhysicsTStop, startPhysicsTNoop, scheduleT, stopPhysicsT,
        hpi, h, Option.toList]

/-- Witness for C9 at a concrete state holding one live timer. -/
theorem c9_single_timer_witness :
    ((startPhysicsTStop tOne).active = (startPhysicsTStop tOne).physicsInterval.toList ∧
      (startPhysicsTStop tOne).active.length ≤ 1) ∧
    ((startPhysicsTNoop tOne).active = (startPhysicsTNoop tOne).physicsInterval.toList ∧
      (startPhysicsTNoop tOne).active.length ≤ 1) :=
  c9_single_timer tOne rfl
